import Mathlib

/-!
Shallow embedding of the clock-virtualization engine of `looptime`
(file `looptime/loops.py`, class `LoopTimeEventLoop`).

Modelling conventions:
* Seconds (Python floats) are idealized as rationals `ℚ`; internal integer
  ticks are `ℤ`.
* The Python builtin `round` is banker's rounding (round half to even); it is
  embedded as `pyRound`.
* The i/o selector is an oracle: each call is summarized by a boolean
  "anything became ready" flag supplied as an input of the cycle, and the
  real-time clock `time.perf_counter` is an oracle value `curr_ts`.
* `None` values are `Option`; Python float truthiness (`x or y`) is modelled
  by an explicit test against `0`.
-/

namespace Looptime

/-- The Python builtin `round`: round half to even (banker's rounding).
Stated with the executable `Rat.floor` so that concrete instances evaluate
inside the kernel. -/
def pyRound (q : ℚ) : ℤ :=
  if q - q.floor < 1/2 then q.floor
  else if 1/2 < q - q.floor then q.floor + 1
  else if q.floor % 2 = 0 then q.floor else q.floor + 1

/-- `__time2int` on a non-`None` value: seconds to internal integer ticks,
with the given resolution reciprocal. -/
def time2intQ (reciprocal : ℤ) (t : ℚ) : ℤ :=
  pyRound (t * reciprocal)

/-- `__time2int`: maps absence to absence. -/
def time2int (reciprocal : ℤ) (t : Option ℚ) : Option ℤ :=
  t.map (time2intQ reciprocal)

/-- `__int2time` on a non-`None` value: internal integer ticks back to
seconds (int/int division, cast to the number type). -/
def int2timeZ (reciprocal : ℤ) (n : ℤ) : ℚ :=
  (n : ℚ) / (reciprocal : ℚ)

/-- `__int2time`: maps absence to absence. -/
def int2time (reciprocal : ℤ) (n : Option ℤ) : Option ℚ :=
  n.map (int2timeZ reciprocal)

/-- The virtual-clock fields of `LoopTimeEventLoop` that the engine mutates
(the name-mangled `self.__…` attributes set by `setup_looptime`). -/
structure LoopState where
  resolution_reciprocal : ℤ
  now : ℤ
  end_ : Option ℤ
  idle_timeout : Option ℤ
  idle_step : Option ℤ
  idle_end : Option ℤ
  noop_limit : Option ℕ
  noop_cycle : Option ℕ
  noop_cycles : ℕ
  enabled : Bool
  sync_ts : Option ℚ
  deriving Repr, DecidableEq

/-- `LoopTimeEventLoop.time()`: the virtual clock in seconds. -/
def time (s : LoopState) : ℚ :=
  int2timeZ s.resolution_reciprocal s.now

/-- The value returned by `__sync`, together with the new `__sync_ts`. -/
structure SyncResult where
  real_timeout : Option ℚ
  step : ℤ
  overtime : Bool
  sync_ts : ℚ
  deriving Repr, DecidableEq

/-- `LoopTimeEventLoop.__sync(timeout, step, end)`.

Reads `__resolution_reciprocal`, `__now`, `__end` and `__sync_ts` from the
state; the reading of `time.perf_counter()` (`__sync_clock`) is the oracle
argument `curr_ts`.  Returns the real timeout, the tick step (`real_step or
0`), the overtime flag, and the new `__sync_ts`. -/
def sync (s : LoopState) (timeout : Option ℚ) (step : Option ℤ)
    (end_ : Option ℤ) (curr_ts : ℚ) : SyncResult :=
  -- real_step = step, then clamped by the timeout.
  let rs1 : Option ℤ :=
    match timeout, step with
    | none, rs => rs
    | some t, some rs => some (min rs (time2intQ s.resolution_reciprocal t))
    | some t, none => some (time2intQ s.resolution_reciprocal t)
  -- Clamp by the explicit `end` argument (the idle deadline), tracking overtime.
  let ot2 : Bool :=
    match end_, rs1 with
    | none, _ => false
    | some e, some rs => decide (rs ≥ e - s.now)
    | some _, none => true
  let rs2 : Option ℤ :=
    match end_, rs1 with
    | none, rs => rs
    | some e, some rs => some (min rs (e - s.now))
    | some e, none => some (e - s.now)
  -- Clamp by the configured global `self.__end`, OVERWRITING overtime.
  let ot3 : Bool :=
    match s.end_, rs2 with
    | none, _ => ot2
    | some e, some rs => decide (rs ≥ e - s.now)
    | some _, none => true
  let rs3 : Option ℤ :=
    match s.end_, rs2 with
    | none, rs => rs
    | some e, some rs => some (min rs (e - s.now))
    | some e, none => some (e - s.now)
  let rt0 : Option ℚ := int2time s.resolution_reciprocal rs3
  -- Subtract the code overhead since the previous sync, clamped at zero.
  let rt1 : Option ℚ :=
    match rt0, s.sync_ts with
    | some rt, some prev =>
        if prev < curr_ts then some (max 0 (rt - (curr_ts - prev))) else some rt
    | rt, _ => rt
  -- Pre-allocate the computed timeout into the sync timestamp.
  let ts1 : ℚ :=
    match rt1 with
    | some rt => curr_ts + rt
    | none => curr_ts
  { real_timeout := rt1, step := rs3.getD 0, overtime := ot3, sync_ts := ts1 }

/-- The per-cycle inputs of `__replaced_select` that come from outside the
virtual-clock state: the requested timeout, the outcomes of the selector
polls (summarized as "was anything ready"), whether any executor sync future
is unfinished, the elapsed real time of the disabled-mode wait, and the
`perf_counter` reading used by `__sync`. -/
structure CycleInput where
  timeout : Option ℚ
  ready0 : Bool
  readyA : Bool
  readyB : Bool
  readyD : Bool
  elapsed : ℚ
  has_pending : Bool
  curr_ts : ℚ
  deriving Repr, DecidableEq

/-- The state of one `__replaced_select` cycle just before the final
ready/boundary post-processing: the mutated state, whether `ready` is
non-empty, the `overtime` flag, and — when the 80/20 split polling was
performed — the timeouts passed to the two real polls (`none` in the inner
option meaning an infinite poll). -/
structure Inter where
  state : LoopState
  ready : Bool
  overtime : Bool
  pollA : Option (Option ℚ) := none
  pollB : Option (Option ℚ) := none
  deriving Repr, DecidableEq

/-- Branch `elif not self.__enabled`: truly sleep as requested and move the
fake time by the elapsed real time (or by the full finite timeout when
nothing became ready). -/
def branchDisabled (s : LoopState) (i : CycleInput) : Inter :=
  let dt : ℚ :=
    match i.timeout with
    | none => i.elapsed
    | some t => if i.readyD then i.elapsed else t
  { state := { s with now := s.now + time2intQ s.resolution_reciprocal dt },
    ready := i.readyD, overtime := false }

/-- Branch `elif any(not fut.done() …)`: executor sync futures are pending;
clear the no-op throttle, sync the step, poll 80% then 20% of the real
timeout, and advance the clock by the full step only if the first poll found
nothing. -/
def branchPending (s : LoopState) (i : CycleInput) : Inter :=
  let s1 : LoopState := { s with noop_limit := none, noop_cycle := none }
  let r : SyncResult := sync s1 i.timeout s1.idle_step none i.curr_ts
  let s2 : LoopState :=
    { s1 with now := s1.now + (if i.readyA then 0 else r.step), sync_ts := some r.sync_ts }
  { state := s2,
    ready := i.readyA || i.readyB,
    overtime := r.overtime,
    pollA := some (r.real_timeout.map (fun t => t * (4/5))),
    pollB := some (r.real_timeout.map (fun t => t * (1/5))) }

/-- The lazily computed idle deadline: `now + idle_timeout` on first idling,
when an idle timeout is configured and no idle deadline is set yet. -/
def idleEndLazy (s : LoopState) : Option ℤ :=
  match s.idle_end, s.idle_timeout with
  | none, some it => some (s.now + it)
  | ie0, _ => ie0

/-- Branch `elif timeout is None`: idle wait.  Lazily set the idle deadline,
then the same 80/20 split stepping bounded by `idle_step` and the idle
deadline. -/
def branchIdle (s : LoopState) (i : CycleInput) : Inter :=
  let ie : Option ℤ := idleEndLazy s
  let s1 : LoopState := { s with idle_end := ie }
  let r : SyncResult := sync s1 none s1.idle_step ie i.curr_ts
  let s2 : LoopState :=
    { s1 with now := s1.now + (if i.readyA then 0 else r.step), sync_ts := some r.sync_ts }
  { state := s2,
    ready := i.readyA || i.readyB,
    overtime := r.overtime,
    pollA := some (r.real_timeout.map (fun t => t * (4/5))),
    pollB := some (r.real_timeout.map (fun t => t * (1/5))) }

/-- Branch `elif timeout == 0`: a quick poll with handles ready to run; an
active throttle run has its counter reset. -/
def branchZero (s : LoopState) : Inter :=
  { state := if s.noop_limit = none then s else { s with noop_cycle := some 0 },
    ready := false, overtime := false }

/-- Branch `elif self.__noop_limit is None or self.__noop_cycle is None`:
start a no-op throttle run. -/
def branchStart (s : LoopState) : Inter :=
  { state := { s with noop_limit := some s.noop_cycles, noop_cycle := some 0 },
    ready := false, overtime := false }

/-- Branch `elif self.__noop_cycle < self.__noop_limit`: count one no-op
cycle. -/
def branchCount (s : LoopState) (c : ℕ) : Inter :=
  { state := { s with noop_cycle := some (c + 1) },
    ready := false, overtime := false }

/-- Final `else` branch: the throttle run is over; sync the step to the next
scheduled handle (bounded only by the global end), clear the counters and
jump. -/
def branchJump (s : LoopState) (i : CycleInput) : Inter :=
  let r : SyncResult := sync s i.timeout none none i.curr_ts
  let s1 : LoopState :=
    { s with noop_limit := none, noop_cycle := none, now := s.now + r.step, sync_ts := some r.sync_ts }
  { state := s1, ready := false, overtime := r.overtime }

/-- The branch dispatch of `__replaced_select`, in source order, up to (and
excluding) the ready/boundary post-processing. -/
def interceptBody (s : LoopState) (i : CycleInput) : Inter :=
  if i.ready0 then { state := s, ready := true, overtime := false }
  else if s.enabled = false then branchDisabled s i
  else if i.has_pending then branchPending s i
  else
    match i.timeout with
    | none => branchIdle s i
    | some t =>
      if t = 0 then branchZero s
      else
        match s.noop_limit, s.noop_cycle with
        | some l, some c => if c < l then branchCount s c else branchJump s i
        | _, _ => branchStart s

/-- The full outcome of one `__replaced_select` cycle: the new state, the
readiness of the cycle, the split-poll timeouts (if a split poll happened),
and whether the end-of-time and idle enforcers fired. -/
structure CycleResult where
  state : LoopState
  ready : Bool
  pollA : Option (Option ℚ) := none
  pollB : Option (Option ℚ) := none
  end_fired : Bool
  idle_fired : Bool
  deriving Repr, DecidableEq

/-- One full cycle of `__replaced_select`: branch dispatch, then the
post-processing — any readiness clears the idle deadline and the throttle
counters, and the two boundary checks (`overtime and self.__end is not None
and self.__now >= self.__end`, likewise for the idle deadline) decide
whether the Deadline Enforcer fires. -/
def selectCycle (s : LoopState) (i : CycleInput) : CycleResult :=
  let b : Inter := interceptBody s i
  let s1 : LoopState :=
    if b.ready then
      { b.state with idle_end := none, noop_limit := none, noop_cycle := none }
    else b.state
  let endF : Bool :=
    match s1.end_ with
    | some e => b.overtime && decide (e ≤ s1.now)
    | none => false
  let idleF : Bool :=
    match s1.idle_end with
    | some e => b.overtime && decide (e ≤ s1.now)
    | none => false
  { state := s1, ready := b.ready, pollA := b.pollA, pollB := b.pollB,
    end_fired := endF, idle_fired := idleF }

/-- The keyword arguments of `setup_looptime` (callables for `start`/`end`
are resolved to their values by the caller; `float(x)` is the identity on the
idealized numbers). -/
structure SetupArgs where
  start : Option ℚ := none
  end_ : Option ℚ := none
  resolution : ℚ := 1/1000000
  idle_step : Option ℚ := none
  idle_timeout : Option ℚ := none
  noop_cycles : ℕ := 42
  enabled_arg : Option Bool := none
  deriving Repr, DecidableEq

/-- `old_time` as computed by `setup_looptime`: the previous clock in
seconds, using the existing (old) reciprocal; absent on the very first
setup. -/
def setupOldTime (old : Option LoopState) : Option ℚ :=
  old.map (fun s => int2timeZ s.resolution_reciprocal s.now)

/-- Whether `setup_looptime` emits the `TimeWarning`: a second-or-later
setup whose requested start time is earlier than the current loop time. -/
def setupWarned (old : Option LoopState) (a : SetupArgs) : Bool :=
  match setupOldTime old, a.start with
  | some o, some n => decide (n < o)
  | _, _ => false

/-- The fields assigned by `setup_looptime` once the warning (if any) has
been passed.  `new_time or old_time`: a `None` or `0.0` start falls back to
the old time; `self.__time2int(...) or 0` maps an absent result to 0. -/
def setupState (old : Option LoopState) (a : SetupArgs) : LoopState :=
  let reciprocal : ℤ := pyRound (1 / a.resolution)
  let chosen : Option ℚ :=
    match a.start with
    | some n => if n = 0 then setupOldTime old else some n
    | none => setupOldTime old
  let now1 : ℤ := (time2int reciprocal chosen).getD 0
  let enabled1 : Bool :=
    match a.enabled_arg, old with
    | some e, _ => e
    | none, some s => s.enabled
    | none, none => true
  { resolution_reciprocal := reciprocal,
    now := now1,
    end_ := time2int reciprocal a.end_,
    idle_timeout := time2int reciprocal a.idle_timeout,
    idle_step := time2int reciprocal a.idle_step,
    idle_end := none,
    noop_limit := none,
    noop_cycle := none,
    noop_cycles := a.noop_cycles,
    enabled := enabled1,
    sync_ts := none }

/-- `LoopTimeEventLoop.setup_looptime(...)`.

`old` is the previous state (`none` on the very first setup, when the
reciprocal and `__now` attributes are absent).  `strict` is true when the
`TimeWarning` is escalated to an error by the warning filters: the
`warnings.warn` call then raises before any field is assigned, which is
modelled by `Except.error`.  On success, returns the new state and whether
the monotonicity warning was emitted. -/
def setupLooptime (old : Option LoopState) (a : SetupArgs) (strict : Bool) :
    Except Unit (LoopState × Bool) :=
  if strict && setupWarned old a then Except.error ()
  else Except.ok (setupState old a, setupWarned old a)

/-- `setup_looptime` applied to an existing loop: on an escalated (strict)
warning the exception propagates and the state is left as it was.  Returns
(state, warned, raised). -/
def setupOn (s : LoopState) (a : SetupArgs) (strict : Bool) :
    LoopState × Bool × Bool :=
  match setupLooptime (some s) a strict with
  | Except.error _ => (s, false, true)
  | Except.ok (s1, warned) => (s1, warned, false)

/-- Entering the `looptime_enabled()` context manager: fail on reentry,
otherwise record the old flag and set `enabled`.  Returns the new state and
the saved `old_enabled` value. -/
def looptimeEnabledEnter (s : LoopState) : Except Unit (LoopState × Bool) :=
  if s.enabled then Except.error ()
  else Except.ok ({ s with enabled := true }, s.enabled)

/-- Leaving the `looptime_enabled()` context manager: the `finally` block,
executed on every exit path (normal return, exception, or cancellation),
restores the saved flag. -/
def looptimeEnabledExit (s : LoopState) (old_enabled : Bool) : LoopState :=
  { s with enabled := old_enabled }

/-- Pointwise minimum of optional constraints (`none` = constraint absent). -/
def optMin : Option ℤ → Option ℤ → Option ℤ
  | none, b => b
  | some a, none => some a
  | some a, some b => some (min a b)

/-- The tick step as the spec words it: the minimum of the present
constraints — the candidate bound, the requested timeout in ticks, the
distance to the explicit deadline, and the distance to the global end. -/
def minConstraints (s : LoopState) (timeout : Option ℚ) (step : Option ℤ)
    (end_ : Option ℤ) : Option ℤ :=
  optMin step
    (optMin (time2int s.resolution_reciprocal timeout)
      (optMin (end_.map (fun e => e - s.now)) (s.end_.map (fun e => e - s.now))))

/-- The two throttle counters are both set or both unset. -/
def noopInv (s : LoopState) : Prop :=
  (s.noop_limit = none ↔ s.noop_cycle = none)

/-- A freshly configured state: resolution 1 (reciprocal 1), clock at 0,
no boundaries, virtualization enabled — as after
`setup_looptime(resolution=1)`. -/
def baseState : LoopState :=
  { resolution_reciprocal := 1, now := 0, end_ := none, idle_timeout := none,
    idle_step := none, idle_end := none, noop_limit := none, noop_cycle := none,
    noop_cycles := 42, enabled := true, sync_ts := none }

/-- A cycle with an infinite requested timeout and no activity at all. -/
def baseInput : CycleInput :=
  { timeout := none, ready0 := false, readyA := false, readyB := false,
    readyD := false, elapsed := 0, has_pending := false, curr_ts := 0 }

/-- A state whose idle deadline lies in the past of the clock (reachable:
a throttle-exhausted jump moves `now` beyond a set `idle_end` because that
branch syncs without the idle bound). -/
def cexStateC1 : LoopState :=
  { baseState with now := 10, idle_end := some 4 }

def cexStateC3 : LoopState :=
  { baseState with end_ := some 100 }

def cexStateC4 : LoopState :=
  { baseState with now := 4, end_ := some 5 }

def cexInputC4 : CycleInput :=
  { baseInput with timeout := some 10, has_pending := true }

def wStateC5 : LoopState :=
  { baseState with idle_step := some 3, end_ := some 7 }

def wInputC5 : CycleInput :=
  { baseInput with timeout := some 2, has_pending := true }

def cexStateC6 : LoopState :=
  { baseState with now := 5 }

def argsC6 : SetupArgs :=
  { start := some 0, resolution := 1 }

def argsC6w : SetupArgs :=
  { start := some 3, resolution := 1 }

def wStateC7 : LoopState :=
  { baseState with now := 7 }

def argsC7 : SetupArgs :=
  { start := some 1 }

def wStateC8 : LoopState :=
  { baseState with enabled := false }

def wStateC10 : LoopState :=
  { baseState with now := 9 }

def argsC10 : SetupArgs :=
  { start := some 0, resolution := 1 }

theorem ratFloor_eq_floor (q : ℚ) : Rat.floor q = ⌊q⌋ :=
  (Rat.floor_def' q).trans Rat.floor_def.symm

theorem pyRound_eq_floor_or_floor_add_one (q : ℚ) :
    pyRound q = ⌊q⌋ ∨ pyRound q = ⌊q⌋ + 1 := by
  unfold pyRound
  rw [ratFloor_eq_floor]
  split_ifs <;> simp

theorem pyRound_intCast (n : ℤ) : pyRound (n : ℚ) = n := by
  unfold pyRound
  rw [ratFloor_eq_floor]
  have h : ⌊(n : ℚ)⌋ = n := Int.floor_intCast n
  simp [h]

/-- The distance from a rational to its banker-rounded value is at most 1/2. -/
theorem abs_pyRound_sub_le (q : ℚ) : |(pyRound q : ℚ) - q| ≤ 1/2 := by
  have hfl : (⌊q⌋ : ℚ) ≤ q := Int.floor_le q
  have hfu : q < ⌊q⌋ + 1 := Int.lt_floor_add_one q
  unfold pyRound
  rw [ratFloor_eq_floor]
  split_ifs with h1 h2 h3
  · rw [abs_sub_comm, abs_of_nonneg (by linarith)]
    linarith
  · rw [abs_of_nonneg (by push_cast; linarith)]
    push_cast
    linarith
  · rw [abs_sub_comm, abs_of_nonneg (by linarith)]
    linarith
  · rw [abs_of_nonneg (by push_cast; linarith)]
    push_cast
    linarith

theorem pyRound_nonneg (q : ℚ) (hq : 0 ≤ q) : 0 ≤ pyRound q := by
  have hfl : (0 : ℤ) ≤ ⌊q⌋ := Int.floor_nonneg.mpr hq
  rcases pyRound_eq_floor_or_floor_add_one q with h | h <;> omega

theorem time2intQ_nonneg (R : ℤ) (t : ℚ) (hR : 0 ≤ (R : ℚ)) (ht : 0 ≤ t) :
    0 ≤ time2intQ R t :=
  pyRound_nonneg _ (mul_nonneg ht hR)

/-- The step returned by `__sync` equals the minimum of the present
constraints (or 0 when none is present). -/
theorem sync_step_eq_minConstraints (s : LoopState) (timeout : Option ℚ)
    (step : Option ℤ) (end_ : Option ℤ) (ts : ℚ) :
    (sync s timeout step end_ ts).step =
      (minConstraints s timeout step end_).getD 0 := by
  rcases timeout with _ | t <;> rcases step with _ | st <;>
    rcases end_ with _ | e <;> rcases hE : s.end_ with _ | E <;>
      simp [sync, minConstraints, optMin, time2int, hE, min_assoc]

/-- The step returned by `__sync` is nonnegative, provided the requested
timeout and candidate bound are nonnegative and the clock has not yet passed
the deadlines. -/
theorem sync_step_nonneg (s : LoopState) (timeout : Option ℚ)
    (step : Option ℤ) (end_ : Option ℤ) (ts : ℚ)
    (hR : 0 < s.resolution_reciprocal)
    (ht : ∀ t ∈ timeout, 0 ≤ t)
    (hs : ∀ x ∈ step, 0 ≤ x)
    (he : ∀ e ∈ end_, s.now ≤ e)
    (hEnd : ∀ e ∈ s.end_, s.now ≤ e) :
    0 ≤ (sync s timeout step end_ ts).step := by
  have hRq : (0 : ℚ) ≤ (s.resolution_reciprocal : ℚ) := by exact_mod_cast hR.le
  have ht2 : ∀ t, timeout = some t → 0 ≤ time2intQ s.resolution_reciprocal t :=
    fun t h => time2intQ_nonneg _ _ hRq (ht t (by simp [h]))
  have hs2 : ∀ x, step = some x → 0 ≤ x := fun x h => hs x (by simp [h])
  have he2 : ∀ e, end_ = some e → 0 ≤ e - s.now :=
    fun e h => by have := he e (by simp [h]); omega
  have hE2 : ∀ e, s.end_ = some e → 0 ≤ e - s.now :=
    fun e h => by have := hEnd e (by simp [h]); omega
  rw [sync_step_eq_minConstraints]
  rcases timeout with _ | t <;> rcases step with _ | st <;>
    rcases end_ with _ | e <;> rcases hE : s.end_ with _ | E <;>
      simp [minConstraints, optMin, time2int, hE]
  all_goals
    try have k1 := ht2 t rfl
  all_goals
    try have k2 := hs2 st rfl
  all_goals
    try have k3 := he2 e rfl
  all_goals
    try have k4 := hE2 E hE
  all_goals omega

/-- The `overtime` flag returned by `__sync`, characterized: when the global
end is configured it reflects only whether the final step reaches the global
end (the earlier deadline check is overwritten); only when no global end is
configured does it reflect the explicit deadline argument. -/
theorem sync_overtime_iff (s : LoopState) (timeout : Option ℚ)
    (step : Option ℤ) (end_ : Option ℤ) (ts : ℚ) :
    (sync s timeout step end_ ts).overtime = true ↔
      ((∃ E, s.end_ = some E ∧ E - s.now ≤ (sync s timeout step end_ ts).step) ∨
       (s.end_ = none ∧
         ∃ e, end_ = some e ∧ e - s.now ≤ (sync s timeout step end_ ts).step)) := by
  rcases timeout with _ | t <;> rcases step with _ | st <;>
    rcases end_ with _ | e <;> rcases hE : s.end_ with _ | E <;>
      simp [sync, hE]

theorem sync_noop_clear (s : LoopState) (timeout : Option ℚ) (step : Option ℤ)
    (end_ : Option ℤ) (ts : ℚ) :
    sync { s with noop_limit := none, noop_cycle := none } timeout step end_ ts =
      sync s timeout step end_ ts := rfl

/-- Unfolding of the post-processing of `selectCycle`: the resulting state. -/
theorem selectCycle_state_def (s : LoopState) (i : CycleInput) :
    (selectCycle s i).state =
      (if (interceptBody s i).ready then
        { (interceptBody s i).state with
            idle_end := none, noop_limit := none, noop_cycle := none }
      else (interceptBody s i).state) := rfl

theorem selectCycle_ready_def (s : LoopState) (i : CycleInput) :
    (selectCycle s i).ready = (interceptBody s i).ready := rfl

theorem selectCycle_now_eq (s : LoopState) (i : CycleInput) :
    (selectCycle s i).state.now = (interceptBody s i).state.now := by
  rw [selectCycle_state_def]
  split <;> rfl

theorem interceptBody_end_eq (s : LoopState) (i : CycleInput) :
    (interceptBody s i).state.end_ = s.end_ := by
  unfold interceptBody branchDisabled branchPending branchIdle branchZero
    branchStart branchCount branchJump
  repeat' split
  all_goals simp

theorem selectCycle_end_eq (s : LoopState) (i : CycleInput) :
    (selectCycle s i).state.end_ = s.end_ := by
  rw [selectCycle_state_def]
  split <;> simp [interceptBody_end_eq]

/-- Unfolding of the end-of-time boundary check of `selectCycle`. -/
theorem selectCycle_end_fired_def (s : LoopState) (i : CycleInput) :
    (selectCycle s i).end_fired =
      (match (selectCycle s i).state.end_ with
       | some e =>
           (interceptBody s i).overtime && decide (e ≤ (selectCycle s i).state.now)
       | none => false) := rfl

theorem branchPending_now (s : LoopState) (i : CycleInput) :
    (branchPending s i).state.now =
      s.now + (if i.readyA then 0
               else (sync s i.timeout s.idle_step none i.curr_ts).step) := rfl

theorem branchIdle_now (s : LoopState) (i : CycleInput) :
    (branchIdle s i).state.now =
      s.now + (if i.readyA then 0
               else (sync s none s.idle_step (idleEndLazy s) i.curr_ts).step) := rfl

theorem branchJump_now (s : LoopState) (i : CycleInput) :
    (branchJump s i).state.now =
      s.now + (sync s i.timeout none none i.curr_ts).step := rfl

theorem branchZero_now (s : LoopState) :
    (branchZero s).state.now = s.now := by
  unfold branchZero
  split <;> rfl

theorem idleEndLazy_ge (s : LoopState)
    (hie : ∀ e ∈ s.idle_end, s.now ≤ e)
    (hit : ∀ x ∈ s.idle_timeout, 0 ≤ x) :
    ∀ e ∈ idleEndLazy s, s.now ≤ e := by
  unfold idleEndLazy
  rcases h1 : s.idle_end with _ | ie <;> rcases h2 : s.idle_timeout with _ | it <;>
    simp_all

/-- While virtualization is enabled, a single interceptor cycle never moves
the clock backwards — provided the requested timeout is nonnegative, the
clock has not yet passed the configured end and idle deadlines, and the
configured idle timeout and idle step are nonnegative. -/
theorem interceptBody_now_mono (s : LoopState) (i : CycleInput)
    (hen : s.enabled = true)
    (hR : 0 < s.resolution_reciprocal)
    (ht : ∀ t ∈ i.timeout, 0 ≤ t)
    (hEnd : ∀ e ∈ s.end_, s.now ≤ e)
    (hie : ∀ e ∈ s.idle_end, s.now ≤ e)
    (hit : ∀ x ∈ s.idle_timeout, 0 ≤ x)
    (his : ∀ x ∈ s.idle_step, 0 ≤ x) :
    s.now ≤ (interceptBody s i).state.now := by
  have hpend : s.now ≤ (branchPending s i).state.now := by
    rw [branchPending_now]
    have hnn := sync_step_nonneg s i.timeout s.idle_step none i.curr_ts hR ht his
      (by simp) hEnd
    split <;> omega
  have hidle : s.now ≤ (branchIdle s i).state.now := by
    rw [branchIdle_now]
    have hnn := sync_step_nonneg s none s.idle_step (idleEndLazy s) i.curr_ts hR
      (by simp) his (idleEndLazy_ge s hie hit) hEnd
    split <;> omega
  have hjump : s.now ≤ (branchJump s i).state.now := by
    rw [branchJump_now]
    have hnn := sync_step_nonneg s i.timeout none none i.curr_ts hR ht
      (by simp) (by simp) hEnd
    omega
  unfold interceptBody
  split
  · exact le_refl _
  split
  · simp_all
  split
  · exact hpend
  split
  · exact hidle
  split
  · rw [branchZero_now]
  split
  · split
    · exact le_refl _
    · exact hjump
  · exact le_refl _

theorem interceptBody_noopInv (s : LoopState) (i : CycleInput) (h : noopInv s) :
    noopInv (interceptBody s i).state := by
  unfold noopInv at h ⊢
  unfold interceptBody branchDisabled branchPending branchIdle branchZero
    branchStart branchCount branchJump
  repeat' split
  all_goals simp_all

theorem selectCycle_noopInv (s : LoopState) (i : CycleInput) (h : noopInv s) :
    noopInv (selectCycle s i).state := by
  rw [selectCycle_state_def]
  split
  · simp [noopInv]
  · exact interceptBody_noopInv s i h

theorem selectCycle_ready_clears (s : LoopState) (i : CycleInput)
    (h : (selectCycle s i).ready = true) :
    (selectCycle s i).state.idle_end = none ∧
      (selectCycle s i).state.noop_limit = none ∧
      (selectCycle s i).state.noop_cycle = none := by
  rw [selectCycle_ready_def] at h
  rw [selectCycle_state_def]
  split
  · simp
  · simp_all

theorem setupLooptime_noops (old : Option LoopState) (a : SetupArgs)
    (strict : Bool) (s1 : LoopState) (w : Bool)
    (h : setupLooptime old a strict = Except.ok (s1, w)) :
    s1.noop_limit = none ∧ s1.noop_cycle = none := by
  unfold setupLooptime at h
  split at h
  · exact absurd h (by simp)
  · simp only [Except.ok.injEq, Prod.mk.injEq] at h
    obtain ⟨h1, _⟩ := h
    subst h1
    exact ⟨rfl, rfl⟩

theorem setupState_now_of_zero_start (s : LoopState) (a : SetupArgs)
    (hstart : a.start = some 0)
    (hres : pyRound (1 / a.resolution) = s.resolution_reciprocal)
    (hR : 0 < s.resolution_reciprocal) :
    (setupState (some s) a).now = s.now := by
  have hRq : ((s.resolution_reciprocal : ℚ)) ≠ 0 := by
    exact_mod_cast hR.ne.symm
  unfold setupState
  rw [hstart, hres]
  simp [setupOldTime, time2int, time2intQ, int2timeZ,
    div_mul_cancel₀ _ hRq, pyRound_intCast]

/-- Claim C1, counterexample: with virtualization enabled, a single
`__replaced_select` cycle (an infinite-timeout idle cycle on a state whose
idle deadline lies before the clock) moves `now` backwards from 10 to 4 —
with no reconfiguration involved. -/
theorem c1_counterexample :
    cexStateC1.enabled = true ∧
      (selectCycle cexStateC1 baseInput).state.now < cexStateC1.now := by
  refine ⟨rfl, ?_⟩
  norm_num [selectCycle, interceptBody, branchIdle, idleEndLazy, sync,
    time2intQ, time2int, int2time, int2timeZ, pyRound, ratFloor_eq_floor,
    cexStateC1, baseState, baseInput]

/-- Claim C1, amended: while `enabled` is true, `now` is non-decreasing in
every Polling Interceptor cycle, provided the requested timeout is
nonnegative, the clock has not yet passed the configured end and the
recorded idle deadline, and the configured idle timeout and idle step are
nonnegative.  (Without these sanity conditions the step synchronized against
a boundary already in the past is negative and `now` moves backwards.) -/
theorem c1_now_monotone (s : LoopState) (i : CycleInput)
    (hen : s.enabled = true)
    (hR : 0 < s.resolution_reciprocal)
    (ht : ∀ t ∈ i.timeout, 0 ≤ t)
    (hEnd : ∀ e ∈ s.end_, s.now ≤ e)
    (hie : ∀ e ∈ s.idle_end, s.now ≤ e)
    (hit : ∀ x ∈ s.idle_timeout, 0 ≤ x)
    (his : ∀ x ∈ s.idle_step, 0 ≤ x) :
    s.now ≤ (selectCycle s i).state.now := by
  rw [selectCycle_now_eq]
  exact interceptBody_now_mono s i hen hR ht hEnd hie hit his

theorem c1_now_monotone_witness :
    baseState.now ≤ (selectCycle baseState baseInput).state.now :=
  c1_now_monotone baseState baseInput rfl (by norm_num [baseState])
    (by simp [baseInput]) (by simp [baseState]) (by simp [baseState])
    (by simp [baseState]) (by simp [baseState])

/-- Claim C2, counterexample: with resolution `r = 9/20`, the reciprocal
`round(1/r)` rounds down to 2, and the round trip of `x = 13/50` lands on
`1/2`, which is `6/25 = 0.24` away from `x` — more than `r/2 = 0.225`. -/
theorem c2_counterexample :
    pyRound (1 / (9/20 : ℚ)) = 2 ∧
      ¬ (|int2timeZ (pyRound (1 / (9/20 : ℚ)))
            (time2intQ (pyRound (1 / (9/20 : ℚ))) (13/50)) - 13/50|
          ≤ (9/20 : ℚ)/2) := by
  constructor
  · norm_num [pyRound, ratFloor_eq_floor]
  · norm_num [int2timeZ, time2intQ, pyRound, ratFloor_eq_floor]
    rw [show |(6/25 : ℚ)| = 6/25 from abs_of_nonneg (by norm_num)]
    norm_num

/-- Claim C2, amended: the round trip differs from `x` by at most half a
tick, `1/(2·round(1/r))`; this is within `r/2` whenever `round(1/r)` did not
round below `1/r` (in particular whenever `1/r` is an integer). -/
theorem c2_roundtrip (x r : ℚ) (hR : 0 < pyRound (1/r)) :
    |int2timeZ (pyRound (1/r)) (time2intQ (pyRound (1/r)) x) - x|
        ≤ 1 / (2 * (pyRound (1/r) : ℚ)) ∧
      ((1/r : ℚ) ≤ (pyRound (1/r) : ℚ) → 0 < r →
        |int2timeZ (pyRound (1/r)) (time2intQ (pyRound (1/r)) x) - x| ≤ r/2) := by
  have hRq : (0 : ℚ) < (pyRound (1/r) : ℚ) := by exact_mod_cast hR
  have hRne : ((pyRound (1/r) : ℚ)) ≠ 0 := hRq.ne.symm
  have key : int2timeZ (pyRound (1/r)) (time2intQ (pyRound (1/r)) x) - x =
      ((pyRound (x * (pyRound (1/r) : ℚ)) : ℚ) - x * (pyRound (1/r) : ℚ))
        / (pyRound (1/r) : ℚ) := by
    unfold int2timeZ time2intQ
    field_simp
    ring
  have hbound : |int2timeZ (pyRound (1/r)) (time2intQ (pyRound (1/r)) x) - x|
      ≤ 1 / (2 * (pyRound (1/r) : ℚ)) := by
    rw [key, abs_div, abs_of_pos hRq]
    rw [div_le_div_iff₀ hRq (by positivity)]
    have h2 := abs_pyRound_sub_le (x * (pyRound (1/r) : ℚ))
    calc |(pyRound (x * (pyRound (1/r) : ℚ)) : ℚ) - x * (pyRound (1/r) : ℚ)|
          * (2 * (pyRound (1/r) : ℚ))
        ≤ (1/2) * (2 * (pyRound (1/r) : ℚ)) := by
          apply mul_le_mul_of_nonneg_right h2
          positivity
      _ = 1 * (pyRound (1/r) : ℚ) := by ring
  refine ⟨hbound, fun h1 h2 => le_trans hbound ?_⟩
  rw [div_le_div_iff₀ (by positivity) (by norm_num)]
  have h3 : (1/r : ℚ) * r ≤ (pyRound (1/r) : ℚ) * r :=
    mul_le_mul_of_nonneg_right h1 h2.le
  rw [one_div_mul_cancel h2.ne.symm] at h3
  nlinarith

theorem c2_roundtrip_witness :
    0 < pyRound (1/(1/4 : ℚ)) ∧
      (|int2timeZ (pyRound (1/(1/4 : ℚ)))
          (time2intQ (pyRound (1/(1/4 : ℚ))) (1/3)) - 1/3|
        ≤ 1 / (2 * (pyRound (1/(1/4 : ℚ)) : ℚ)) ∧
      ((1/(1/4 : ℚ) : ℚ) ≤ (pyRound (1/(1/4 : ℚ)) : ℚ) → 0 < (1/4 : ℚ) →
        |int2timeZ (pyRound (1/(1/4 : ℚ)))
          (time2intQ (pyRound (1/(1/4 : ℚ))) (1/3)) - 1/3| ≤ (1/4 : ℚ)/2)) :=
  ⟨by norm_num [pyRound, ratFloor_eq_floor],
   c2_roundtrip (1/3) (1/4) (by norm_num [pyRound, ratFloor_eq_floor])⟩

/-- Claim C3, counterexample: with the global end configured far away
(`end = 100`, `now = 0`), a requested timeout of 5 and an idle deadline at 2,
the idle deadline is the binding (minimum) constraint — the returned step is
`2 = 2 - now` — yet `overtime` is `false`, because the global-end check
overwrites the flag set by the deadline check. -/
theorem c3_counterexample :
    (sync cexStateC3 (some 5) none (some 2) 0).step = 2 ∧
      2 - cexStateC3.now ≤ (sync cexStateC3 (some 5) none (some 2) 0).step ∧
      (sync cexStateC3 (some 5) none (some 2) 0).overtime = false := by
  refine ⟨?_, ?_, ?_⟩ <;>
    norm_num [sync, time2intQ, time2int, int2time, int2timeZ, pyRound,
      ratFloor_eq_floor, cexStateC3, baseState]

/-- Claim C3, amended: `__sync` returns the step equal to the minimum of the
present constraints, but `overtime` only reflects the last boundary checked:
with a global end configured, `overtime` is true iff the final step reaches
the global end; only without a global end does it reflect the explicit
deadline (idle) bound.  A binding idle deadline alone does not set
`overtime` when a farther global end is configured. -/
theorem c3_sync_min_overtime (s : LoopState) (timeout : Option ℚ)
    (step : Option ℤ) (end_ : Option ℤ) (ts : ℚ) :
    (sync s timeout step end_ ts).step =
        (minConstraints s timeout step end_).getD 0 ∧
      ((sync s timeout step end_ ts).overtime = true ↔
        ((∃ E, s.end_ = some E ∧ E - s.now ≤ (sync s timeout step end_ ts).step) ∨
         (s.end_ = none ∧
           ∃ e, end_ = some e ∧ e - s.now ≤ (sync s timeout step end_ ts).step))) :=
  ⟨sync_step_eq_minConstraints s timeout step end_ ts,
   sync_overtime_iff s timeout step end_ ts⟩

/-- Claim C4, counterexample: with `end = 5` and `now = 4`, two consecutive
delegated-work cycles with timeout 10 both fire the end-of-time enforcer,
although the boundary is crossed only once (the clock moves 4 → 5 and then
stays at 5): the enforcer is not limited to one firing per crossing. -/
theorem c4_counterexample :
    (selectCycle cexStateC4 cexInputC4).end_fired = true ∧
      (selectCycle cexStateC4 cexInputC4).state.now = 5 ∧
      (selectCycle (selectCycle cexStateC4 cexInputC4).state cexInputC4).end_fired
        = true ∧
      (selectCycle (selectCycle cexStateC4 cexInputC4).state cexInputC4).state.now
        = 5 := by
  refine ⟨?_, ?_, ?_, ?_⟩ <;>
    norm_num [selectCycle, interceptBody, branchPending, sync, time2intQ,
      time2int, int2time, int2timeZ, pyRound, ratFloor_eq_floor,
      cexStateC4, cexInputC4, baseState, baseInput]

/-- Claim C4, amended: the end-of-time enforcer fires in a cycle exactly
when the cycle's step was flagged overtime, the end is configured, and the
cycle ends with `now >= end`.  In particular it never fires in a cycle that
ends with `now < end`, and it does fire in EVERY overtime cycle while
`now >= end` persists — enforcement is repeated per cycle, not once per
crossing. -/
theorem c4_end_enforcer_iff (s : LoopState) (i : CycleInput) :
    (selectCycle s i).end_fired = true ↔
      ((interceptBody s i).overtime = true ∧
        ∃ e, s.end_ = some e ∧ e ≤ (selectCycle s i).state.now) := by
  have hse : s.end_ = (selectCycle s i).state.end_ := (selectCycle_end_eq s i).symm
  rw [selectCycle_end_fired_def, hse]
  rcases hE : (selectCycle s i).state.end_ with _ | e <;> simp [hE]

theorem c4_end_enforcer_iff_witness :
    (interceptBody cexStateC4 cexInputC4).overtime = true ∧
      ∃ e, cexStateC4.end_ = some e ∧
        e ≤ (selectCycle cexStateC4 cexInputC4).state.now :=
  (c4_end_enforcer_iff cexStateC4 cexInputC4).mp
    (by norm_num [selectCycle, interceptBody, branchPending, sync, time2intQ,
      time2int, int2time, int2timeZ, pyRound, ratFloor_eq_floor,
      cexStateC4, cexInputC4, baseState, baseInput])

theorem selectCycle_pollA_def (s : LoopState) (i : CycleInput) :
    (selectCycle s i).pollA = (interceptBody s i).pollA := rfl

theorem selectCycle_pollB_def (s : LoopState) (i : CycleInput) :
    (selectCycle s i).pollB = (interceptBody s i).pollB := rfl

/-- Claim C5: in a cycle where delegated (executor) work is pending and the
immediate zero-timeout poll found nothing, the interceptor performs exactly
two sequential polls — the first with 80% and the second with 20% of the
synchronized real duration — and advances `now` by the full computed step
iff the first poll found nothing ready. -/
theorem c5_split_poll (s : LoopState) (i : CycleInput)
    (h0 : i.ready0 = false) (hen : s.enabled = true) (hp : i.has_pending = true) :
    (selectCycle s i).pollA =
        some ((sync s i.timeout s.idle_step none i.curr_ts).real_timeout.map
          (fun t => t * (4/5))) ∧
      (selectCycle s i).pollB =
        some ((sync s i.timeout s.idle_step none i.curr_ts).real_timeout.map
          (fun t => t * (1/5))) ∧
      (selectCycle s i).state.now =
        s.now + (if i.readyA then 0
                 else (sync s i.timeout s.idle_step none i.curr_ts).step) := by
  have hb : interceptBody s i = branchPending s i := by
    unfold interceptBody
    simp [h0, hen, hp]
  refine ⟨?_, ?_, ?_⟩
  · rw [selectCycle_pollA_def, hb]
    rfl
  · rw [selectCycle_pollB_def, hb]
    rfl
  · rw [selectCycle_now_eq, hb, branchPending_now]

theorem c5_split_poll_witness :
    (selectCycle wStateC5 wInputC5).pollA =
        some ((sync wStateC5 wInputC5.timeout wStateC5.idle_step none
          wInputC5.curr_ts).real_timeout.map (fun t => t * (4/5))) ∧
      (selectCycle wStateC5 wInputC5).pollB =
        some ((sync wStateC5 wInputC5.timeout wStateC5.idle_step none
          wInputC5.curr_ts).real_timeout.map (fun t => t * (1/5))) ∧
      (selectCycle wStateC5 wInputC5).state.now =
        wStateC5.now + (if wInputC5.readyA then 0
          else (sync wStateC5 wInputC5.timeout wStateC5.idle_step none
            wInputC5.curr_ts).step) :=
  c5_split_poll wStateC5 wInputC5 rfl rfl rfl

/-- Claim C6, counterexample: `configure(start=0)` with the clock at 5, in
non-strict mode, emits the monotonicity warning — but the clock stays at 5
instead of becoming 0, because a `0.0` start is falsy and falls back to the
old time. -/
theorem c6_counterexample :
    (setupOn cexStateC6 argsC6 false).2.1 = true ∧
      time (setupOn cexStateC6 argsC6 false).1 = 5 ∧
      ¬ time (setupOn cexStateC6 argsC6 false).1 = 0 := by
  refine ⟨?_, ?_, ?_⟩ <;>
    norm_num [setupOn, setupLooptime, setupState, setupWarned, setupOldTime,
      time, time2int, time2intQ, int2timeZ, pyRound, ratFloor_eq_floor,
      cexStateC6, argsC6, baseState]

/-- Claim C6, amended: for every nonzero start `t` strictly below the
current time that is representable at the configured resolution, a
non-strict `configure({start: t})` emits the warning, applies the change,
and leaves `current_time()` equal to `t`.  (For `t = 0` the warning is still
emitted but the start is ignored and the clock is unchanged.) -/
theorem c6_backward_start (s : LoopState) (a : SetupArgs) (t : ℚ)
    (hstart : a.start = some t) (ht0 : t ≠ 0) (hlt : t < time s)
    (hR : 0 < pyRound (1 / a.resolution))
    (hrep : ∃ k : ℤ, t * (pyRound (1 / a.resolution) : ℚ) = k) :
    (setupOn s a false).2.1 = true ∧ time (setupOn s a false).1 = t := by
  have hRne : ((pyRound (1 / a.resolution) : ℤ) : ℚ) ≠ 0 := by
    have : (0 : ℚ) < ((pyRound (1 / a.resolution) : ℤ) : ℚ) := by exact_mod_cast hR
    exact this.ne.symm
  have hw : setupWarned (some s) a = true := by
    unfold setupWarned setupOldTime
    rw [hstart]
    simpa [time, int2timeZ] using hlt
  constructor
  · unfold setupOn setupLooptime
    simp [hw]
  · unfold setupOn setupLooptime
    simp only [Bool.false_and, Bool.and_self, if_neg, Bool.false_eq_true,
      not_false_eq_true]
    obtain ⟨k, hk⟩ := hrep
    unfold time setupState
    rw [hstart]
    simp only [ht0, if_neg, ne_eq, not_false_eq_true, time2int, Option.map,
      Option.getD]
    unfold time2intQ int2timeZ
    rw [hk, pyRound_intCast, ← hk]
    exact mul_div_cancel_right₀ t hRne

theorem c6_backward_start_witness :
    (setupOn cexStateC6 argsC6w false).2.1 = true ∧
      time (setupOn cexStateC6 argsC6w false).1 = 3 :=
  c6_backward_start cexStateC6 argsC6w 3 rfl (by norm_num)
    (by norm_num [time, int2timeZ, cexStateC6, baseState])
    (by norm_num [pyRound, ratFloor_eq_floor, argsC6w])
    ⟨3, by norm_num [pyRound, ratFloor_eq_floor, argsC6w]⟩

/-- Claim C7: in strict mode (the monotonicity warning escalated to an
error), `configure({start: t})` with `t` below the current time fails at the
warning, before any field is assigned: the whole clock state is returned
unmodified, no warning outcome is recorded, and the error is reported. -/
theorem c7_strict_rejects (s : LoopState) (a : SetupArgs) (t : ℚ)
    (hstart : a.start = some t) (hlt : t < time s) :
    setupOn s a true = (s, false, true) := by
  have hw : setupWarned (some s) a = true := by
    unfold setupWarned setupOldTime
    rw [hstart]
    simpa [time, int2timeZ] using hlt
  unfold setupOn setupLooptime
  simp [hw]

theorem c7_strict_rejects_witness :
    setupOn wStateC7 argsC7 true = (wStateC7, false, true) :=
  c7_strict_rejects wStateC7 argsC7 1 rfl
    (by norm_num [time, int2timeZ, wStateC7, baseState])

/-- Claim C8: `looptime_enabled()` fails immediately (with no state change)
when virtualization is already enabled; otherwise it enables virtualization
for the scope and the `finally`-based exit restores the saved prior flag on
every exit path. -/
theorem c8_enable_scoped (s : LoopState) :
    (s.enabled = true → looptimeEnabledEnter s = Except.error ()) ∧
      (s.enabled = false →
        ∃ s1 old, looptimeEnabledEnter s = Except.ok (s1, old) ∧
          s1.enabled = true ∧
          ∀ s2 : LoopState, (looptimeEnabledExit s2 old).enabled = s.enabled) := by
  constructor
  · intro h
    unfold looptimeEnabledEnter
    simp [h]
  · intro h
    refine ⟨{ s with enabled := true }, s.enabled, ?_, rfl, fun s2 => rfl⟩
    unfold looptimeEnabledEnter
    simp [h]

theorem c8_enable_scoped_witness :
    looptimeEnabledEnter baseState = Except.error () ∧
      (∃ s1 old, looptimeEnabledEnter wStateC8 = Except.ok (s1, old) ∧
        s1.enabled = true ∧
        ∀ s2 : LoopState, (looptimeEnabledExit s2 old).enabled = wStateC8.enabled) :=
  ⟨(c8_enable_scoped baseState).1 rfl, (c8_enable_scoped wStateC8).2 rfl⟩

/-- Claim C9: the throttle counters `noop_limit`/`noop_cycle` are both unset
or both set after initialization and after every interceptor cycle, and any
observed readiness leaves both unset at the end of the cycle. -/
theorem c9_noop_counters (s : LoopState) (i : CycleInput) (h : noopInv s) :
    noopInv (selectCycle s i).state ∧
      ((selectCycle s i).ready = true →
        (selectCycle s i).state.noop_limit = none ∧
          (selectCycle s i).state.noop_cycle = none) ∧
      (∀ old a strict s1 w, setupLooptime old a strict = Except.ok (s1, w) →
        s1.noop_limit = none ∧ s1.noop_cycle = none) :=
  ⟨selectCycle_noopInv s i h,
   fun hr => ⟨(selectCycle_ready_clears s i hr).2.1,
              (selectCycle_ready_clears s i hr).2.2⟩,
   setupLooptime_noops⟩

theorem c9_noop_counters_witness :
    noopInv (selectCycle baseState baseInput).state ∧
      ((selectCycle baseState baseInput).ready = true →
        (selectCycle baseState baseInput).state.noop_limit = none ∧
          (selectCycle baseState baseInput).state.noop_cycle = none) ∧
      (∀ old a strict s1 w, setupLooptime old a strict = Except.ok (s1, w) →
        s1.noop_limit = none ∧ s1.noop_cycle = none) :=
  c9_noop_counters baseState baseInput (by simp [noopInv, baseState])

/-- Claim C10: reconfiguring with `start = 0` on a clock that has advanced
(`now ≠ 0`) leaves `now` at its previous value — a zero start behaves like an
absent start (the resulting state is identical to the one produced with no
start at all), so the clock cannot be reset to exactly zero. -/
theorem c10_zero_start (s : LoopState) (a : SetupArgs)
    (hstart : a.start = some 0) (hn : s.now ≠ 0)
    (hres : pyRound (1 / a.resolution) = s.resolution_reciprocal)
    (hR : 0 < s.resolution_reciprocal) :
    (setupOn s a false).1.now = s.now ∧
      (setupOn s a false).1.now ≠ 0 ∧
      (setupOn s a false).1 = (setupOn s { a with start := none } false).1 := by
  have h1 : (setupOn s a false).1 = setupState (some s) a := by
    unfold setupOn setupLooptime
    simp
  have h2 : (setupOn s { a with start := none } false).1 =
      setupState (some s) { a with start := none } := by
    unfold setupOn setupLooptime
    simp
  have h3 : setupState (some s) a = setupState (some s) { a with start := none } := by
    unfold setupState
    rw [hstart]
    simp
  have h4 := setupState_now_of_zero_start s a hstart hres hR
  refine ⟨?_, ?_, ?_⟩
  · rw [h1, h4]
  · rw [h1, h4]
    exact hn
  · rw [h1, h2, h3]

theorem c10_zero_start_witness :
    (setupOn wStateC10 argsC10 false).1.now = wStateC10.now ∧
      (setupOn wStateC10 argsC10 false).1.now ≠ 0 ∧
      (setupOn wStateC10 argsC10 false).1 =
        (setupOn wStateC10 { argsC10 with start := none } false).1 :=
  c10_zero_start wStateC10 argsC10 rfl (by norm_num [wStateC10, baseState])
    (by norm_num [pyRound, ratFloor_eq_floor, argsC10, wStateC10, baseState])
    (by norm_num [wStateC10, baseState])

end Looptime
